import Mathlib

/-!
Shallow embedding of the strongSwan IPsec Prometheus exporter collector
(`strongswan/collector.go`, `strongswan/checker.go`, the `CertsCollector`
variant of `certs_collector.go`, and the domain types of `types.go`).

External collaborators (the vici protocol client, `vici.UnmarshalMessage`,
`x509.ParseCertificate`, `time.Time.Format`) are modelled by their results:
a listing environment carries the outcome of session acquisition, of the
streamed request, and of per-record unmarshalling; X.509 parsing is an
oracle `String → Option X509Cert`.  Machine integers are modelled as `Int`
(the Go fields are small `int`/`int64` values, far from overflow in every
claim considered), times as integer nanoseconds, and metric values as `ℚ`
(Go converts every emitted value to `float64`; `ℚ` captures the exact
arithmetic the code performs, in particular the sub-second division by 1e9
in `Duration.Seconds`).
-/

namespace IpsecExporter

/-- Connection status ordinals from `collector.go` (`tunnelInstalled` etc.). -/
def tunnelInstalled : Int := 0

def connectionEstablished : Int := 1

def down : Int := 2

def unknown : Int := 3

/-- `IkeSa` from `types.go`; `Name` is filled from the enclosing key by
`listSas`, all other fields by `vici.UnmarshalMessage`.  The Go
`map[string]ChildIkeSa` is modelled as a list in its (arbitrary) iteration
order. -/
structure ChildIkeSa where
  Name : String
  UniqueID : String
  ReqID : String
  State : String
  Mode : String
  Protocol : String
  Encap : String
  EncAlg : String
  EncKey : Int
  IntegAlg : String
  IntegKey : Int
  PrfAlg : String
  DHGroup : String
  Esn : String
  BytesIn : Int
  PacketsIn : Int
  LastInSec : Int
  BytesOut : Int
  PacketsOut : Int
  LastOutSec : Int
  RekeySec : Int
  LifetimeSec : Int
  EstablishSec : Int
  LocalTS : List String
  RemoteTS : List String
deriving Repr, DecidableEq

structure IkeSa where
  Name : String
  UniqueID : String
  Version : Int
  State : String
  LocalHost : String
  LocalPort : Int
  LocalID : String
  RemoteHost : String
  RemotePort : Int
  RemoteID : String
  Initiator : String
  InitiatorSpi : String
  ResponderSpi : String
  NatLocal : String
  NatRemote : String
  NatFake : String
  NatAny : String
  EncAlg : String
  EncKey : Int
  IntegAlg : String
  IntegKey : Int
  PrfAlg : String
  DHGroup : String
  EstablishSec : Int
  RekeySec : Int
  ReauthSec : Int
  Children : List ChildIkeSa
deriving Repr, DecidableEq

/-- `Crt` from `types.go` (field `Type` is not a legal Lean field name, so
it is `ctype` here; `Flags`, `Data` likewise lower-cased). -/
structure Crt where
  ctype : String
  flags : String
  data : String
deriving Repr, DecidableEq

/-- Result of `x509.ParseCertificate`: the fields the collector reads.
`ipAddresses` and `uris` already carry the `String()` renderings the code
uses; `notBefore`/`notAfter` are nanosecond timestamps. -/
structure X509Cert where
  serialNumber : Option Int
  subject : String
  notBefore : Int
  notAfter : Int
  dnsNames : List String
  emailAddresses : List String
  ipAddresses : List String
  uris : List String
deriving Repr, DecidableEq

/-- One Prometheus gauge sample sent to the collect channel: metric name,
ordered label values, numeric value. -/
structure Sample where
  name : String
  labels : List String
  value : ℚ
deriving Repr, DecidableEq

/-- `viciBoolToInt` from `collector.go`. -/
def viciBoolToInt (v : String) : Int :=
  if v = "yes" then 1 else 0

/-- `viciStateToInt` from `collector.go`: the Go `switch` on the state token. -/
def viciStateToInt (v : String) : Int :=
  if v = "ESTABLISHED" then connectionEstablished
  else if v = "INSTALLED" then tunnelInstalled
  else if v = "REKEYED" then tunnelInstalled
  else if v = "REKEYING" then tunnelInstalled
  else if v = "" then down
  else unknown

/-- `alternateNames` from `collector.go`: four groups built in order, each
group appended to `altNames` only when its `+`-join is non-empty, the
groups joined by `,`. -/
def alternateNames (cert : X509Cert) : String :=
  let dnsMerged := String.intercalate "+" (cert.dnsNames.map (fun dns => "DNS=" ++ dns))
  let altNames : List String := []
  let altNames := if dnsMerged ≠ "" then altNames ++ [dnsMerged] else altNames
  let emailsMerged := String.intercalate "+" (cert.emailAddresses.map (fun em => "EM=" ++ em))
  let altNames := if emailsMerged ≠ "" then altNames ++ [emailsMerged] else altNames
  let ipsMerged := String.intercalate "+" (cert.ipAddresses.map (fun ip => "IP=" ++ ip))
  let altNames := if ipsMerged ≠ "" then altNames ++ [ipsMerged] else altNames
  let urisMerged := String.intercalate "+" (cert.uris.map (fun uri => "URI=" ++ uri))
  let altNames := if urisMerged ≠ "" then altNames ++ [urisMerged] else altNames
  String.intercalate "," altNames

/-- The loop body of `formatHexStrWithColons`: Go iterates the (ASCII)
string with byte index `i`, writing `:` before every character at a
positive even index. -/
def insertColonsAux : Nat → List Char → List Char
  | _, [] => []
  | i, r :: rest =>
    (if i > 0 ∧ i % 2 = 0 then [':', r] else [r]) ++ insertColonsAux (i + 1) rest

/-- `formatHexStrWithColons` from `certs_collector.go`: pad odd-length hex
with one leading `0`, then insert `:` before every character at a positive
even index. -/
def formatHexStrWithColons (hexStr : String) : String :=
  let hexStr := if hexStr.length % 2 ≠ 0 then "0" ++ hexStr else hexStr
  String.mk (insertColonsAux 0 hexStr.toList)

/-- Go's `fmt.Sprintf("%x", sn)` on a `*big.Int`: lowercase hex digits, a
leading `-` for negatives. -/
def goHex (n : Int) : String :=
  if n < 0 then "-" ++ String.mk (Nat.toDigits 16 (-n).toNat)
  else String.mk (Nat.toDigits 16 n.toNat)

/-- `formatSerialNumber` from `certs_collector.go`; a `nil` big-int pointer
is `none`. -/
def formatSerialNumber (sn : Option Int) : String :=
  match sn with
  | none => ""
  | some n => formatHexStrWithColons (goHex n)

/-- Go's `(*big.Int).String()` (decimal), as used for the serial-number
label in `collector.go`; a nil pointer renders as `<nil>`. -/
def bigIntString (sn : Option Int) : String :=
  match sn with
  | none => "<nil>"
  | some n => toString n

/-- `Collector.collectIkeMetrics`: the thirteen per-tunnel gauge samples, in
channel-send order. -/
def collectIkeMetrics (ikeSa : IkeSa) : List Sample :=
  [ ⟨"strongswan_ike_version", [ikeSa.Name, ikeSa.UniqueID], (ikeSa.Version : ℚ)⟩,
    ⟨"strongswan_ike_status", [ikeSa.Name, ikeSa.UniqueID], (viciStateToInt ikeSa.State : ℚ)⟩,
    ⟨"strongswan_ike_initiator", [ikeSa.Name, ikeSa.UniqueID], (viciBoolToInt ikeSa.Initiator : ℚ)⟩,
    ⟨"strongswan_ike_nat_local", [ikeSa.Name, ikeSa.UniqueID], (viciBoolToInt ikeSa.NatLocal : ℚ)⟩,
    ⟨"strongswan_ike_nat_remote", [ikeSa.Name, ikeSa.UniqueID], (viciBoolToInt ikeSa.NatRemote : ℚ)⟩,
    ⟨"strongswan_ike_nat_fake", [ikeSa.Name, ikeSa.UniqueID], (viciBoolToInt ikeSa.NatFake : ℚ)⟩,
    ⟨"strongswan_ike_nat_any", [ikeSa.Name, ikeSa.UniqueID], (viciBoolToInt ikeSa.NatAny : ℚ)⟩,
    ⟨"strongswan_ike_encryption_key_size", [ikeSa.Name, ikeSa.UniqueID, ikeSa.EncAlg, ikeSa.DHGroup], (ikeSa.EncKey : ℚ)⟩,
    ⟨"strongswan_ike_integrity_key_size", [ikeSa.Name, ikeSa.UniqueID, ikeSa.IntegAlg, ikeSa.DHGroup], (ikeSa.IntegKey : ℚ)⟩,
    ⟨"strongswan_ike_established_seconds", [ikeSa.Name, ikeSa.UniqueID], (ikeSa.EstablishSec : ℚ)⟩,
    ⟨"strongswan_ike_rekey_seconds", [ikeSa.Name, ikeSa.UniqueID], (ikeSa.RekeySec : ℚ)⟩,
    ⟨"strongswan_ike_reauth_seconds", [ikeSa.Name, ikeSa.UniqueID], (ikeSa.ReauthSec : ℚ)⟩,
    ⟨"strongswan_ike_children_size", [ikeSa.Name, ikeSa.UniqueID], (ikeSa.Children.length : ℚ)⟩ ]

/-- `Collector.collectIkeChildMetrics`: the thirteen per-child gauge
samples, in channel-send order. -/
def collectIkeChildMetrics (name : String) (uniqueID : String) (c : ChildIkeSa) : List Sample :=
  let localTSs := String.intercalate ";" c.LocalTS
  let remoteTSs := String.intercalate ";" c.RemoteTS
  [ ⟨"strongswan_sa_status", [name, uniqueID, c.Name, c.UniqueID, localTSs, remoteTSs], (viciStateToInt c.State : ℚ)⟩,
    ⟨"strongswan_sa_encap", [name, uniqueID, c.Name, c.UniqueID], (viciBoolToInt c.Encap : ℚ)⟩,
    ⟨"strongswan_sa_encryption_key_size", [name, uniqueID, c.Name, c.UniqueID, c.EncAlg, c.DHGroup], (c.EncKey : ℚ)⟩,
    ⟨"strongswan_sa_integrity_key_size", [name, uniqueID, c.Name, c.UniqueID, c.IntegAlg, c.DHGroup], (c.IntegKey : ℚ)⟩,
    ⟨"strongswan_sa_inbound_bytes", [name, uniqueID, c.Name, c.UniqueID, localTSs, remoteTSs], (c.BytesIn : ℚ)⟩,
    ⟨"strongswan_sa_inbound_packets", [name, uniqueID, c.Name, c.UniqueID, localTSs, remoteTSs], (c.PacketsIn : ℚ)⟩,
    ⟨"strongswan_sa_last_inbound_seconds", [name, uniqueID, c.Name, c.UniqueID, localTSs, remoteTSs], (c.LastInSec : ℚ)⟩,
    ⟨"strongswan_sa_outbound_bytes", [name, uniqueID, c.Name, c.UniqueID, localTSs, remoteTSs], (c.BytesOut : ℚ)⟩,
    ⟨"strongswan_sa_outbound_packets", [name, uniqueID, c.Name, c.UniqueID, localTSs, remoteTSs], (c.PacketsOut : ℚ)⟩,
    ⟨"strongswan_sa_last_outbound_seconds", [name, uniqueID, c.Name, c.UniqueID, localTSs, remoteTSs], (c.LastOutSec : ℚ)⟩,
    ⟨"strongswan_sa_established_seconds", [name, uniqueID, c.Name, c.UniqueID], (c.EstablishSec : ℚ)⟩,
    ⟨"strongswan_sa_rekey_seconds", [name, uniqueID, c.Name, c.UniqueID], (c.RekeySec : ℚ)⟩,
    ⟨"strongswan_sa_lifetime_seconds", [name, uniqueID, c.Name, c.UniqueID], (c.LifetimeSec : ℚ)⟩ ]

/-- The loop of `Collector.collectCrtMetrics`: non-`X509` records are
skipped, records whose bytes fail X.509 parsing are skipped (logged), each
remaining certificate emits one validity and one expiry sample and bumps
the `x509Crts` counter.  `parse` models `x509.ParseCertificate`, `fmtTime`
models `Format(time.RFC3339)`, `now` is the single timestamp captured
before the loop. -/
def crtLoop (parse : String → Option X509Cert) (fmtTime : Int → String) (now : Int) :
    List Crt → List Sample × Nat
  | [] => ([], 0)
  | crt :: rest =>
    if crt.ctype ≠ "X509" then crtLoop parse fmtTime now rest
    else
      match parse crt.data with
      | none => crtLoop parse fmtTime now rest
      | some cert =>
        let valid : Int := if cert.notBefore < now ∧ now < cert.notAfter then 1 else 0
        let expire : ℚ := ((cert.notAfter - now : Int) : ℚ) / 1000000000
        let labels := [bigIntString cert.serialNumber, cert.subject, alternateNames cert,
                       fmtTime cert.notBefore, fmtTime cert.notAfter]
        let (rest', cnt) := crtLoop parse fmtTime now rest
        (⟨"strongswan_crt_valid", labels, (valid : ℚ)⟩ ::
         ⟨"strongswan_crt_expire_secs", labels, expire⟩ :: rest', cnt + 1)

/-- `Collector.collectCrtMetrics` from `collector.go`: `now := time.Now()`
is captured once, the loop runs, then the `strongswan_crt_count` sample is
emitted with the accumulated counter. -/
def collectCrtMetrics (parse : String → Option X509Cert) (fmtTime : Int → String)
    (now : Int) (crts : List Crt) : List Sample :=
  let (samples, x509Crts) := crtLoop parse fmtTime now crts
  samples ++ [⟨"strongswan_crt_count", [], (x509Crts : ℚ)⟩]

/-- One response message of the `list-sas` stream: `err` is the result of
`m.Err()`; `entries` are the top-level keys with, for each, the result of
`vici.UnmarshalMessage` on its sub-tree (`none` = unmarshal error). -/
structure SasMsg where
  err : Option String
  entries : List (String × Option IkeSa)
deriving Repr

/-- One response message of the `list-certs` stream: `err` is `m.Err()`,
`unmarshal` the result of `vici.UnmarshalMessage` into a `Crt`. -/
structure CrtMsg where
  err : Option String
  unmarshal : Option Crt
deriving Repr, DecidableEq

/-- Result of `StreamedCommandRequest`: either the message stream or a
transport error. -/
inductive ReqResult (α : Type) where
  | ok (msgs : α)
  | fail (msg : String)
deriving Repr, DecidableEq

/-- Environment for one `listSas` call: the outcome of `c.viciClientFn()`
(`none` = success) and of the streamed request. -/
structure SasEnv where
  acquire : Option String
  request : ReqResult (List SasMsg)
deriving Repr

/-- Environment for one `listCrts` call. -/
structure CrtEnv where
  acquire : Option String
  request : ReqResult (List CrtMsg)
deriving Repr, DecidableEq

/-- Value/error pair a listing returns, plus the number of `Close` calls
performed on the acquired session during the call. -/
structure ListResult (α : Type) where
  val : α
  err : Option String
  closes : Nat
deriving Repr

/-- Per-message decoding of `listSas`: every top-level key is one tunnel;
an unmarshal error is logged and skips only that key (`continue`); on
success the key is written into `ikeSa.Name`. -/
def decodeSasMsg (m : SasMsg) : List IkeSa :=
  m.entries.filterMap (fun e =>
    match e.2 with
    | none => none
    | some ikeSa => some { ikeSa with Name := e.1 })

/-- `Collector.listSas`: acquisition failure returns the error with no
close; afterwards `defer s.Close()` guarantees one close on every return
path.  A message with `m.Err() ≠ nil` is logged and skipped (`continue`);
the remaining messages' keys are decoded in order. -/
def listSas (env : SasEnv) : ListResult (List IkeSa) :=
  match env.acquire with
  | some e => ⟨[], some e, 0⟩
  | none =>
    match env.request with
    | .fail e => ⟨[], some e, 1⟩
    | .ok msgs =>
      ⟨msgs.foldl (fun res m => if m.err.isSome then res else res ++ decodeSasMsg m) [],
       none, 1⟩

/-- The response loop of `Collector.listCrts`.  A message with
`m.Err() ≠ nil` makes the whole call return that error.  On an unmarshal
error the Go code executes `return nil, err` — but `err` at that point
holds the `nil` from the preceding `m.Err()` check, so the call returns an
empty result with a nil error, dropping every record. -/
def listCrtsLoop : List CrtMsg → List Crt → List Crt × Option String
  | [], res => (res, none)
  | m :: rest, res =>
    match m.err with
    | some e => ([], some e)
    | none =>
      match m.unmarshal with
      | none => ([], none)
      | some crt => listCrtsLoop rest (res ++ [crt])

/-- `Collector.listCrts`: acquisition failure returns the error with no
close; afterwards `defer s.Close()` guarantees one close on every return
path. -/
def listCrts (env : CrtEnv) : ListResult (List Crt) :=
  match env.acquire with
  | some e => ⟨[], some e, 0⟩
  | none =>
    match env.request with
    | .fail e => ⟨[], some e, 1⟩
    | .ok msgs =>
      let (res, e) := listCrtsLoop msgs []
      ⟨res, e, 1⟩

/-- Environment of one full `Collect` scrape: the two listing environments
plus the external pure collaborators (X.509 parser, RFC3339 renderer) and
the wall-clock value `time.Now()` reads during the certificate projection. -/
structure CollectEnv where
  sasEnv : SasEnv
  crtEnv : CrtEnv
  parse : String → Option X509Cert
  fmtTime : Int → String
  now : Int

/-- The tunnel-side samples `Collect` emits after a successful `listSas`:
the count, then per-tunnel metrics, then per-child metrics of each tunnel. -/
def tunnelSamples (sas : List IkeSa) : List Sample :=
  ⟨"strongswan_ike_count", [], (sas.length : ℚ)⟩ ::
    sas.foldl (fun acc ikeSa =>
      acc ++ collectIkeMetrics ikeSa ++
        ikeSa.Children.foldl (fun a child =>
          a ++ collectIkeChildMetrics ikeSa.Name ikeSa.UniqueID child) []) []

/-- `Collector.Collect` from `collector.go`: a `listSas` error emits both
zero counts and returns; otherwise tunnel samples are emitted, then
`listCrts` runs — its error emits a zero certificate count, else the
certificate metrics are projected. -/
def collect (env : CollectEnv) : List Sample :=
  let sasR := listSas env.sasEnv
  match sasR.err with
  | some _ =>
    [⟨"strongswan_ike_count", [], 0⟩, ⟨"strongswan_crt_count", [], 0⟩]
  | none =>
    let ts := tunnelSamples sasR.val
    let crtR := listCrts env.crtEnv
    match crtR.err with
    | some _ => ts ++ [⟨"strongswan_crt_count", [], 0⟩]
    | none => ts ++ collectCrtMetrics env.parse env.fmtTime env.now crtR.val

/-- `Collector.Check` from `checker.go`: acquire a session, on failure
return the error (no close); on success close once and return nil.  The
result is the returned error paired with the number of close calls. -/
def check (acquire : Option String) : Option String × Nat :=
  match acquire with
  | some e => (some e, 0)
  | none => (none, 1)

/-- The loop of `CertsCollector.collectCertMetrics` from
`certs_collector.go` (the split-collector iteration): same skipping rules,
but the labels are serial (hex-colon formatted), subject, not-before,
not-after, and no count is emitted here (the count is `len(certs)` emitted
by its `Collect`). -/
def certLoop (parse : String → Option X509Cert) (fmtTime : Int → String) (now : Int) :
    List Crt → List Sample
  | [] => []
  | crt :: rest =>
    if crt.ctype ≠ "X509" then certLoop parse fmtTime now rest
    else
      match parse crt.data with
      | none => certLoop parse fmtTime now rest
      | some cert =>
        let valid : Int := if cert.notBefore < now ∧ now < cert.notAfter then 1 else 0
        let expireIn : ℚ := ((cert.notAfter - now : Int) : ℚ) / 1000000000
        let labels := [formatSerialNumber cert.serialNumber, cert.subject,
                       fmtTime cert.notBefore, fmtTime cert.notAfter]
        ⟨"strongswan_cert_valid", labels, (valid : ℚ)⟩ ::
          ⟨"strongswan_cert_expire_secs", labels, expireIn⟩ ::
            certLoop parse fmtTime now rest

/-- `CertsCollector.collectCertMetrics`: `now := c.now()` is read once
before the loop and shared by every certificate of the scrape. -/
def collectCertMetrics (parse : String → Option X509Cert) (fmtTime : Int → String)
    (now : Int) (certs : List Crt) : List Sample :=
  certLoop parse fmtTime now certs

/-! ### Spec-side formulations (written from the specification's words, to
be compared with the source-side definitions above) -/

/-- Spec-side: the certificates a scrape interprets — those whose type tag
is the X.509 tag and whose raw bytes parse. -/
def x509Filter (parse : String → Option X509Cert) (crts : List Crt) : List X509Cert :=
  crts.filterMap (fun crt => if crt.ctype = "X509" then parse crt.data else none)

/-- Spec-side: `valid = 1` iff `now` is strictly after not-before and
strictly before not-after, else `0`. -/
def validOf (now : Int) (cert : X509Cert) : ℚ :=
  if cert.notBefore < now ∧ now < cert.notAfter then 1 else 0

/-- Spec-side: expiry seconds = `not_after - now`, signed, with sub-second
precision (nanoseconds over 1e9). -/
def expireOf (now : Int) (cert : X509Cert) : ℚ :=
  ((cert.notAfter - now : Int) : ℚ) / 1000000000

/-- The label vector of the `collector.go` certificate samples. -/
def crtLabels (fmtTime : Int → String) (cert : X509Cert) : List String :=
  [bigIntString cert.serialNumber, cert.subject, alternateNames cert,
   fmtTime cert.notBefore, fmtTime cert.notAfter]

/-- The validity/expiry sample pair one certificate contributes in
`collector.go`. -/
def crtPair (fmtTime : Int → String) (now : Int) (cert : X509Cert) : List Sample :=
  [⟨"strongswan_crt_valid", crtLabels fmtTime cert, validOf now cert⟩,
   ⟨"strongswan_crt_expire_secs", crtLabels fmtTime cert, expireOf now cert⟩]

/-- The label vector of the `certs_collector.go` certificate samples. -/
def certLabels (fmtTime : Int → String) (cert : X509Cert) : List String :=
  [formatSerialNumber cert.serialNumber, cert.subject,
   fmtTime cert.notBefore, fmtTime cert.notAfter]

/-- The validity/expiry sample pair one certificate contributes in
`certs_collector.go`. -/
def certPair (fmtTime : Int → String) (now : Int) (cert : X509Cert) : List Sample :=
  [⟨"strongswan_cert_valid", certLabels fmtTime cert, validOf now cert⟩,
   ⟨"strongswan_cert_expire_secs", certLabels fmtTime cert, expireOf now cert⟩]

/-- Spec-side alternate-name formatting: the four `+`-joined groups in
fixed order, empty groups dropped, the rest joined by `,`. -/
def alternateNamesSpec (cert : X509Cert) : String :=
  String.intercalate ","
    (List.filter (fun g => decide (g ≠ ""))
      [String.intercalate "+" (cert.dnsNames.map (fun dns => "DNS=" ++ dns)),
       String.intercalate "+" (cert.emailAddresses.map (fun em => "EM=" ++ em)),
       String.intercalate "+" (cert.ipAddresses.map (fun ip => "IP=" ++ ip)),
       String.intercalate "+" (cert.uris.map (fun uri => "URI=" ++ uri))])

/-- Spec-side byte-pair chunking of a hex string. -/
def chunks2 : List Char → List (List Char)
  | [] => []
  | [c] => [[c]]
  | a :: b :: rest => [a, b] :: chunks2 rest

/-- Spec-side count of decodable top-level keys across the non-flagged
tunnel-listing records. -/
def decodedKeyCount (msgs : List SasMsg) : Nat :=
  ((msgs.filter (fun m => m.err.isNone)).map
    (fun m => (m.entries.filter (fun e => e.2.isSome)).length)).sum

/-- The metric names of the certificate category in `collector.go`. -/
def certSampleNames : List String :=
  ["strongswan_crt_count", "strongswan_crt_valid", "strongswan_crt_expire_secs"]

/-- The certificate-category portion of a scrape's output. -/
def certSamples (out : List Sample) : List Sample :=
  out.filter (fun s => certSampleNames.contains s.name)

/-- The non-certificate (tunnel-category) portion of a scrape's output. -/
def nonCertSamples (out : List Sample) : List Sample :=
  out.filter (fun s => !certSampleNames.contains s.name)

/-! ### Concrete fixtures for witnesses and counterexamples -/

def saFix : IkeSa :=
  { Name := "ike", UniqueID := "1", Version := 2, State := "ESTABLISHED",
    LocalHost := "", LocalPort := 0, LocalID := "", RemoteHost := "",
    RemotePort := 0, RemoteID := "", Initiator := "yes", InitiatorSpi := "",
    ResponderSpi := "", NatLocal := "no", NatRemote := "no", NatFake := "no",
    NatAny := "no", EncAlg := "aes", EncKey := 256, IntegAlg := "sha",
    IntegKey := 256, PrfAlg := "", DHGroup := "g", EstablishSec := 1,
    RekeySec := 2, ReauthSec := 3, Children := [] }

def certFix : X509Cert :=
  { serialNumber := some 291, subject := "CN=test", notBefore := 1000000000,
    notAfter := 2000000000, dnsNames := ["a", "b"], emailAddresses := [],
    ipAddresses := [], uris := ["u1"] }

def parseFix : String → Option X509Cert :=
  fun d => if d = "certdata" then some certFix else none

def fmtFix : Int → String := fun t => toString t

def crtFix : Crt := ⟨"X509", "", "certdata"⟩

def sasEnvOkFix : SasEnv := ⟨none, .ok [⟨none, [("ike", some saFix)]⟩]⟩

def sasEnvFailFix : SasEnv := ⟨some "connection error", .ok []⟩

def sasEnvErrRecFix : SasEnv := ⟨none, .ok [⟨some "boom", []⟩, ⟨none, [("ike", some saFix)]⟩]⟩

def crtEnvGoodFix : CrtEnv := ⟨none, .ok [⟨none, some crtFix⟩]⟩

def crtEnvFailFix : CrtEnv := ⟨some "connection error", .ok []⟩

def crtEnvBadFix : CrtEnv := ⟨none, .ok [⟨none, some crtFix⟩, ⟨none, none⟩]⟩

/-! ### Helper lemmas -/

theorem intercalate_cons_of_ne {α : Type} (s x : List α) (ys : List (List α)) (h : ys ≠ []) :
    List.intercalate s (x :: ys) = x ++ s ++ List.intercalate s ys := by
  cases ys with
  | nil => exact absurd rfl h
  | cons y zs => simp [List.intercalate, List.intersperse]

theorem insertColonsAux_congr : ∀ (cs : List Char) (i j : Nat), 0 < i → 0 < j →
    i % 2 = j % 2 → insertColonsAux i cs = insertColonsAux j cs
  | [], _, _, _, _, _ => rfl
  | _ :: rest, i, j, _, _, _ => by
    simp only [insertColonsAux]
    rw [insertColonsAux_congr rest (i + 1) (j + 1) (by omega) (by omega) (by omega)]
    have hiff : (i > 0 ∧ i % 2 = 0) ↔ (j > 0 ∧ j % 2 = 0) := by omega
    rw [if_congr hiff rfl rfl]

theorem insertColons_even : ∀ (cs : List Char), cs.length % 2 = 0 →
    insertColonsAux 0 cs = List.intercalate [':'] (chunks2 cs)
  | [], _ => rfl
  | [_], h => by simp at h
  | a :: b :: rest, h => by
    have hr : rest.length % 2 = 0 := by
      simp only [List.length_cons] at h; omega
    have ih := insertColons_even rest hr
    cases rest with
    | nil => simp [insertColonsAux, chunks2, List.intercalate]
    | cons c rest' =>
      have h2 : insertColonsAux 2 (c :: rest') = ':' :: insertColonsAux 0 (c :: rest') := by
        show ':' :: c :: insertColonsAux 3 rest' = ':' :: c :: insertColonsAux 1 rest'
        rw [insertColonsAux_congr rest' 3 1 (by omega) (by omega) (by omega)]
      have hne : chunks2 (c :: rest') ≠ [] := by
        cases rest' <;> simp [chunks2]
      have hstep : insertColonsAux 0 (a :: b :: c :: rest')
          = a :: b :: insertColonsAux 2 (c :: rest') := rfl
      have hch : chunks2 (a :: b :: c :: rest') = [a, b] :: chunks2 (c :: rest') := rfl
      rw [hstep, h2, ih, hch, intercalate_cons_of_ne _ _ _ hne]
      simp

theorem crtLoop_eq (p : String → Option X509Cert) (f : Int → String) (now : Int)
    (crts : List Crt) :
    crtLoop p f now crts =
      ((x509Filter p crts).flatMap (crtPair f now), (x509Filter p crts).length) := by
  induction crts with
  | nil => rfl
  | cons crt rest ih =>
    simp only [x509Filter, List.filterMap_cons] at ih ⊢
    by_cases hc : crt.ctype = "X509"
    · cases hp : p crt.data with
      | none => simpa [crtLoop, hc, hp] using ih
      | some cert =>
        simp only [crtLoop, hc, hp, ih, ne_eq, not_true_eq_false, ite_false]
        simp [crtPair, validOf, expireOf, crtLabels, apply_ite ((↑·) : Int → ℚ)]
    · simpa [crtLoop, hc] using ih

theorem certLoop_eq (p : String → Option X509Cert) (f : Int → String) (now : Int)
    (crts : List Crt) :
    certLoop p f now crts = (x509Filter p crts).flatMap (certPair f now) := by
  induction crts with
  | nil => rfl
  | cons crt rest ih =>
    simp only [x509Filter, List.filterMap_cons] at ih ⊢
    by_cases hc : crt.ctype = "X509"
    · cases hp : p crt.data with
      | none => simpa [certLoop, hc, hp] using ih
      | some cert =>
        simp only [certLoop, hc, hp, ih, ne_eq, not_true_eq_false, ite_false]
        simp [certPair, validOf, expireOf, certLabels, apply_ite ((↑·) : Int → ℚ)]
    · simpa [certLoop, hc] using ih

theorem x509Filter_length (p : String → Option X509Cert) (crts : List Crt) :
    (x509Filter p crts).length =
      (crts.filter (fun c => c.ctype == "X509" && (p c.data).isSome)).length := by
  induction crts with
  | nil => rfl
  | cons crt rest ih =>
    simp only [x509Filter] at ih ⊢
    by_cases hc : crt.ctype = "X509"
    · cases hp : p crt.data <;>
        simp [List.filterMap_cons, List.filter_cons, hc, hp, ih]
    · simp [List.filterMap_cons, List.filter_cons, hc, ih]

theorem countP_flatMap_crtPair (f : Int → String) (now : Int) (nm : String)
    (hn : nm = "strongswan_crt_valid" ∨ nm = "strongswan_crt_expire_secs")
    (l : List X509Cert) :
    (l.flatMap (crtPair f now)).countP (fun s => s.name == nm) = l.length := by
  rcases hn with h | h <;> subst h <;>
    induction l with
    | nil => rfl
    | cons cert rest ih => simp [crtPair, List.countP_cons, ih]

theorem certSamples_flatMap_crtPair (f : Int → String) (now : Int) (l : List X509Cert) :
    (l.flatMap (crtPair f now)).filter (fun s => !certSampleNames.contains s.name) = [] := by
  induction l with
  | nil => rfl
  | cons cert rest ih =>
    simp only [List.flatMap_cons, List.filter_append, ih]
    simp [crtPair, List.filter_cons, certSampleNames]

theorem namesLabels_flatMap_crtPair (f : Int → String) (now now' : Int) (l : List X509Cert) :
    (l.flatMap (crtPair f now)).map (fun s => (s.name, s.labels)) =
      (l.flatMap (crtPair f now')).map (fun s => (s.name, s.labels)) := by
  induction l with
  | nil => rfl
  | cons cert rest ih => simp [crtPair, ih]

theorem decodeSasMsg_length (m : SasMsg) :
    (decodeSasMsg m).length = (m.entries.filter (fun e => e.2.isSome)).length := by
  unfold decodeSasMsg
  induction m.entries with
  | nil => rfl
  | cons e rest ih =>
    obtain ⟨k, o⟩ := e
    cases o <;> simp [List.filterMap_cons, List.filter_cons, ih]

theorem sasFoldl_length (msgs : List SasMsg) : ∀ acc : List IkeSa,
    (msgs.foldl (fun res m => if m.err.isSome then res else res ++ decodeSasMsg m) acc).length
      = acc.length + decodedKeyCount msgs := by
  induction msgs with
  | nil => intro acc; simp [decodedKeyCount]
  | cons m rest ih =>
    intro acc
    cases hm : m.err with
    | some e => simp [decodedKeyCount, List.filter_cons, hm, ih]
    | none =>
      simp only [List.foldl_cons, hm, Option.isSome_none, Bool.false_eq_true, if_false]
      rw [ih]
      simp [decodedKeyCount, List.filter_cons, hm, decodeSasMsg_length]
      omega

theorem listCrtsLoop_abort (bad : CrtMsg) (post : List CrtMsg)
    (hbe : bad.err = none) (hbu : bad.unmarshal = none) :
    ∀ (pre : List CrtMsg) (acc : List Crt),
      (∀ m ∈ pre, m.err = none ∧ m.unmarshal.isSome) →
      listCrtsLoop (pre ++ bad :: post) acc = ([], none) := by
  intro pre
  induction pre with
  | nil => intro acc _; simp [listCrtsLoop, hbe, hbu]
  | cons m rest ih =>
    intro acc h
    obtain ⟨hme, hmu⟩ := h m (by simp)
    obtain ⟨crt, hcrt⟩ := Option.isSome_iff_exists.mp hmu
    simp only [List.cons_append, listCrtsLoop, hme, hcrt]
    exact ih _ (fun m' hm' => h m' (by simp [hm']))

/-! ### Claim theorems -/

/-- Claim C5: the state-token-to-status mapping is total with values in
{0,1,2,3}, maps ESTABLISHED to 1, INSTALLED/REKEYED/REKEYING to 0, the
empty token to 2 and everything else to 3, and the very same mapping is
used for the tunnel status sample and for the child-association status
sample. -/
theorem C5_state_mapping :
    (∀ v, viciStateToInt v = 0 ∨ viciStateToInt v = 1 ∨ viciStateToInt v = 2 ∨ viciStateToInt v = 3)
    ∧ viciStateToInt "ESTABLISHED" = 1
    ∧ viciStateToInt "INSTALLED" = 0
    ∧ viciStateToInt "REKEYED" = 0
    ∧ viciStateToInt "REKEYING" = 0
    ∧ viciStateToInt "" = 2
    ∧ (∀ v, v ≠ "ESTABLISHED" → v ≠ "INSTALLED" → v ≠ "REKEYED" → v ≠ "REKEYING" → v ≠ "" →
        viciStateToInt v = 3)
    ∧ (∀ sa : IkeSa, Sample.mk "strongswan_ike_status" [sa.Name, sa.UniqueID]
        ((viciStateToInt sa.State : Int) : ℚ) ∈ collectIkeMetrics sa)
    ∧ (∀ (name uid : String) (c : ChildIkeSa),
        Sample.mk "strongswan_sa_status"
          [name, uid, c.Name, c.UniqueID, String.intercalate ";" c.LocalTS,
           String.intercalate ";" c.RemoteTS]
          ((viciStateToInt c.State : Int) : ℚ) ∈ collectIkeChildMetrics name uid c) := by
  refine ⟨?_, by decide, by decide, by decide, by decide, by decide, ?_, ?_, ?_⟩
  · intro v
    unfold viciStateToInt
    split_ifs <;> simp [connectionEstablished, tunnelInstalled, down, unknown]
  · intro v h1 h2 h3 h4 h5
    simp [viciStateToInt, h1, h2, h3, h4, h5, unknown]
  · intro sa
    simp [collectIkeMetrics]
  · intro name uid c
    simp [collectIkeChildMetrics]

/-- Witness for C5 at the concrete unknown token `"FOO"`. -/
theorem C5_state_mapping_witness :
    ("FOO" : String) ≠ "ESTABLISHED" ∧ viciStateToInt "FOO" = 3 :=
  ⟨by decide, C5_state_mapping.2.2.2.2.2.2.1 "FOO" (by decide) (by decide) (by decide)
    (by decide) (by decide)⟩

/-- Claim C6: a single captured `now` is shared across every certificate of
a scrape (both certificate collectors project exactly the parsed X.509
records through `validOf now`/`expireOf now` with that one `now`);
`valid = 1` iff `now` is strictly between the bounds, else `0`; and the
expiry value is the signed sub-second quantity `(not_after - now)/1e9`,
negative exactly after expiry. -/
theorem C6_cert_validity (p : String → Option X509Cert) (f : Int → String) (now : Int)
    (crts : List Crt) :
    collectCrtMetrics p f now crts
        = (x509Filter p crts).flatMap (crtPair f now)
          ++ [⟨"strongswan_crt_count", [], ((x509Filter p crts).length : ℚ)⟩]
    ∧ collectCertMetrics p f now crts = (x509Filter p crts).flatMap (certPair f now)
    ∧ (∀ cert, validOf now cert = 1 ↔ (cert.notBefore < now ∧ now < cert.notAfter))
    ∧ (∀ cert, validOf now cert = 1 ∨ validOf now cert = 0)
    ∧ (∀ cert, expireOf now cert = ((cert.notAfter : ℚ) - (now : ℚ)) / 1000000000)
    ∧ (∀ cert, expireOf now cert < 0 ↔ cert.notAfter < now) := by
  refine ⟨?_, ?_, ?_, ?_, ?_, ?_⟩
  · simp [collectCrtMetrics, crtLoop_eq]
  · simp [collectCertMetrics, certLoop_eq]
  · intro cert
    unfold validOf
    split_ifs with h <;> norm_num [h]
  · intro cert
    unfold validOf
    split_ifs <;> simp
  · intro cert
    unfold expireOf
    push_cast
    ring
  · intro cert
    unfold expireOf
    rw [div_lt_iff₀ (by norm_num)]
    simp

/-- Claim C7: serial-number formatting — the nil serial formats to `""`,
the documented concrete values hold, and on any even-digit hex string the
formatter inserts exactly one `:` per byte pair without extra padding. -/
theorem C7_serial_format :
    formatSerialNumber none = ""
    ∧ formatSerialNumber (some 0) = "00"
    ∧ formatSerialNumber (some 10) = "0a"
    ∧ formatSerialNumber (some 291) = "01:23"
    ∧ formatSerialNumber (some 48879) = "be:ef"
    ∧ (∀ s : String, s.length % 2 = 0 →
        formatHexStrWithColons s = String.mk (List.intercalate [':'] (chunks2 s.toList))) := by
  refine ⟨rfl, by decide, by decide, by decide, by decide, ?_⟩
  intro s h
  simp only [formatHexStrWithColons]
  rw [if_neg (by omega)]
  rw [insertColons_even s.toList (show s.toList.length % 2 = 0 from h)]

/-- Witness for C7 at the concrete even-length hex string `"abcd"`. -/
theorem C7_serial_format_witness :
    ("abcd" : String).length % 2 = 0
    ∧ formatHexStrWithColons "abcd" = String.mk (List.intercalate [':'] (chunks2 "abcd".toList)) :=
  ⟨by decide, C7_serial_format.2.2.2.2.2 "abcd" (by decide)⟩

/-- Claim C8 counterexample: on DNS=[a,b] together with URI=[u1] the code
does not produce the spec's example string `"DNS=a+b,URI=u1"` — every
member of a group carries the type tag, so the output is
`"DNS=a+DNS=b,URI=u1"`. -/
theorem C8_alternate_names_counterexample :
    certFix.dnsNames = ["a", "b"] ∧ certFix.uris = ["u1"]
    ∧ certFix.emailAddresses = [] ∧ certFix.ipAddresses = []
    ∧ alternateNames certFix ≠ "DNS=a+b,URI=u1" := by
  refine ⟨rfl, rfl, rfl, rfl, ?_⟩
  decide

/-- Claim C8 (amended): alternate-name formatting equals the spec's
formulation — four groups in fixed order DNS, EM, IP, URI, every member
prefixed by its type tag, members joined by `+` in order, empty groups
omitted, groups joined by `,` — and on DNS=[a,b], URI=[u1] it yields
`"DNS=a+DNS=b,URI=u1"` (each member tagged, not only the first). -/
theorem C8_alternate_names :
    (∀ cert : X509Cert, alternateNames cert = alternateNamesSpec cert)
    ∧ alternateNames certFix = "DNS=a+DNS=b,URI=u1" := by
  constructor
  · intro cert
    simp only [alternateNames, alternateNamesSpec]
    split_ifs <;> simp_all [List.filter]
  · decide

/-- Claim C9: every successfully acquired session is closed exactly once
before the operation returns — in the tunnel listing, the certificate
listing and the health check alike — and a failed acquisition performs no
close. -/
theorem C9_session_release (sasEnv : SasEnv) (crtEnv : CrtEnv) (acq : Option String) :
    (listSas sasEnv).closes = (if sasEnv.acquire.isNone then 1 else 0)
    ∧ (listCrts crtEnv).closes = (if crtEnv.acquire.isNone then 1 else 0)
    ∧ (check acq).2 = (if acq.isNone then 1 else 0) := by
  refine ⟨?_, ?_, ?_⟩
  · obtain ⟨a, r⟩ := sasEnv
    cases a with
    | some e => simp [listSas]
    | none => cases r <;> simp [listSas]
  · obtain ⟨a, r⟩ := crtEnv
    cases a with
    | some e => simp [listCrts]
    | none =>
      cases r with
      | fail e => simp [listCrts]
      | ok msgs =>
        rcases hr : listCrtsLoop msgs [] with ⟨res, e⟩
        simp [listCrts, hr]
  · cases acq <;> simp [check]

/-- Claim C10: when the certificate listing succeeds, the emitted
certificate count equals the number of listed records that are tagged
`X509` and parse as X.509, and that number also equals the number of
validity samples and the number of expiry samples — one of each per
counted certificate. -/
theorem C10_cert_count (p : String → Option X509Cert) (f : Int → String) (now : Int)
    (crts : List Crt) :
    (collectCrtMetrics p f now crts).getLast?
        = some ⟨"strongswan_crt_count", [],
            ((crts.filter (fun c => c.ctype == "X509" && (p c.data).isSome)).length : ℚ)⟩
    ∧ (collectCrtMetrics p f now crts).countP (fun s => s.name == "strongswan_crt_valid")
        = (crts.filter (fun c => c.ctype == "X509" && (p c.data).isSome)).length
    ∧ (collectCrtMetrics p f now crts).countP (fun s => s.name == "strongswan_crt_expire_secs")
        = (crts.filter (fun c => c.ctype == "X509" && (p c.data).isSome)).length := by
  have hmain : collectCrtMetrics p f now crts
      = (x509Filter p crts).flatMap (crtPair f now)
        ++ [⟨"strongswan_crt_count", [], ((x509Filter p crts).length : ℚ)⟩] := by
    simp [collectCrtMetrics, crtLoop_eq]
  refine ⟨?_, ?_, ?_⟩
  · rw [hmain, List.getLast?_concat, x509Filter_length]
  · rw [hmain]
    simp [List.countP_append, countP_flatMap_crtPair f now _ (Or.inl rfl), x509Filter_length]
  · rw [hmain]
    simp [List.countP_append, countP_flatMap_crtPair f now _ (Or.inr rfl), x509Filter_length]

/-- Claim C1 counterexample: with the very same (healthy) certificate
environment, a tunnel-fetch failure changes the certificate samples — the
scrape emits only the zero certificate count instead of the metrics the
certificate fetch would have produced, so the isolation is not
bidirectional. -/
theorem C1_isolation_counterexample :
    certSamples (collect ⟨sasEnvFailFix, crtEnvGoodFix, parseFix, fmtFix, 0⟩)
      ≠ certSamples (collect ⟨sasEnvOkFix, crtEnvGoodFix, parseFix, fmtFix, 0⟩) := by
  decide

/-- Claim C1 (amended): a certificate-fetch failure is isolated — the
tunnel samples are exactly those of a scrape whose certificate fetch
succeeds, followed by the zero certificate count — but a tunnel-fetch
failure short-circuits the scrape: both counts are emitted as zero and the
certificate fetch does not proceed, whatever its environment holds. -/
theorem C1_isolation_amended (sasEnv : SasEnv) (crtEnvF crtEnvS : CrtEnv)
    (p : String → Option X509Cert) (f : Int → String) (n : Int) :
    ((listSas sasEnv).err = none → (listCrts crtEnvF).err.isSome →
      collect ⟨sasEnv, crtEnvF, p, f, n⟩
        = tunnelSamples (listSas sasEnv).val ++ [⟨"strongswan_crt_count", [], 0⟩])
    ∧ ((listSas sasEnv).err = none → (listCrts crtEnvS).err = none →
      collect ⟨sasEnv, crtEnvS, p, f, n⟩
        = tunnelSamples (listSas sasEnv).val
          ++ collectCrtMetrics p f n (listCrts crtEnvS).val)
    ∧ ((listSas sasEnv).err.isSome →
      collect ⟨sasEnv, crtEnvF, p, f, n⟩
        = [⟨"strongswan_ike_count", [], 0⟩, ⟨"strongswan_crt_count", [], 0⟩]) := by
  refine ⟨?_, ?_, ?_⟩
  · intro hs hc
    obtain ⟨e, he⟩ := Option.isSome_iff_exists.mp hc
    simp [collect, hs, he]
  · intro hs hc
    simp [collect, hs, hc]
  · intro hs
    obtain ⟨e, he⟩ := Option.isSome_iff_exists.mp hs
    simp [collect, he]

/-- Witness for the amended C1 at a concrete healthy tunnel environment
and failing certificate environment. -/
theorem C1_isolation_amended_witness :
    ((listSas sasEnvOkFix).err = none ∧ (listCrts crtEnvFailFix).err.isSome)
    ∧ collect ⟨sasEnvOkFix, crtEnvFailFix, parseFix, fmtFix, 0⟩
        = tunnelSamples (listSas sasEnvOkFix).val ++ [⟨"strongswan_crt_count", [], 0⟩] :=
  ⟨⟨rfl, rfl⟩,
    (C1_isolation_amended sasEnvOkFix crtEnvFailFix crtEnvGoodFix parseFix fmtFix 0).1 rfl rfl⟩

/-- Claim C2 counterexample: a tunnel-listing response whose first record
carries the protocol failure flag does not make the listing return an
error, and the tunnel count is not 0 — the flagged record is skipped and
the sibling success record still yields one tunnel. -/
theorem C2_error_record_counterexample :
    sasEnvErrRecFix.request = .ok [⟨some "boom", []⟩, ⟨none, [("ike", some saFix)]⟩]
    ∧ (listSas sasEnvErrRecFix).err = none
    ∧ (listSas sasEnvErrRecFix).val.length = 1
    ∧ (collect ⟨sasEnvErrRecFix, crtEnvGoodFix, parseFix, fmtFix, 0⟩).head?
        = some ⟨"strongswan_ike_count", [], 1⟩ := by
  refine ⟨rfl, rfl, rfl, ?_⟩
  decide

/-- Claim C2 (amended): only session-acquisition failure or a transport
error of the request itself abort the tunnel listing with that error and a
zero count and no per-tunnel samples; a response record flagged failed is
skipped (logged), and the emitted tunnel count equals the number of
decodable top-level keys across the non-flagged success records. -/
theorem C2_tunnel_listing_amended (env : SasEnv) (crtEnv : CrtEnv)
    (p : String → Option X509Cert) (f : Int → String) (n : Int) :
    (∀ e, env.acquire = some e →
      listSas env = ⟨[], some e, 0⟩
      ∧ collect ⟨env, crtEnv, p, f, n⟩
          = [⟨"strongswan_ike_count", [], 0⟩, ⟨"strongswan_crt_count", [], 0⟩])
    ∧ (∀ e, env.acquire = none → env.request = .fail e →
      listSas env = ⟨[], some e, 1⟩
      ∧ collect ⟨env, crtEnv, p, f, n⟩
          = [⟨"strongswan_ike_count", [], 0⟩, ⟨"strongswan_crt_count", [], 0⟩])
    ∧ (∀ msgs, env.acquire = none → env.request = .ok msgs →
      (listSas env).err = none
      ∧ (listSas env).val.length = decodedKeyCount msgs
      ∧ (collect ⟨env, crtEnv, p, f, n⟩).head?
          = some ⟨"strongswan_ike_count", [], (decodedKeyCount msgs : ℚ)⟩) := by
  refine ⟨?_, ?_, ?_⟩
  · intro e he
    have h1 : listSas env = ⟨[], some e, 0⟩ := by simp [listSas, he]
    exact ⟨h1, by simp [collect, h1]⟩
  · intro e he hr
    have h1 : listSas env = ⟨[], some e, 1⟩ := by simp [listSas, he, hr]
    exact ⟨h1, by simp [collect, h1]⟩
  · intro msgs he hr
    have h1 : listSas env
        = ⟨msgs.foldl (fun res m => if m.err.isSome then res else res ++ decodeSasMsg m) [],
           none, 1⟩ := by
      simp [listSas, he, hr]
    have hlen : (listSas env).val.length = decodedKeyCount msgs := by
      rw [h1]
      simpa using sasFoldl_length msgs []
    refine ⟨by rw [h1], hlen, ?_⟩
    have hcol : collect ⟨env, crtEnv, p, f, n⟩ = tunnelSamples (listSas env).val
        ++ (match (listCrts crtEnv).err with
            | some _ => [⟨"strongswan_crt_count", [], 0⟩]
            | none => collectCrtMetrics p f n (listCrts crtEnv).val) := by
      simp only [collect, h1]
      cases hc : (listCrts crtEnv).err <;> simp [hc, h1]
    rw [hcol]
    simp [tunnelSamples, hlen]

/-- Witness for the amended C2 at a concrete healthy environment with one
success record holding one decodable tunnel key. -/
theorem C2_tunnel_listing_amended_witness :
    sasEnvOkFix.acquire = none
    ∧ (listSas sasEnvOkFix).val.length = decodedKeyCount [⟨none, [("ike", some saFix)]⟩] :=
  ⟨rfl, ((C2_tunnel_listing_amended sasEnvOkFix crtEnvGoodFix parseFix fmtFix 0).2.2
    [⟨none, [("ike", some saFix)]⟩] rfl rfl).2.1⟩

/-- Claim C3 counterexample: the projection of the same certificate
snapshot differs between two runs whose wall-clock reads differ, so the
projector is not independent of the clock. -/
theorem C3_clock_counterexample :
    collectCrtMetrics parseFix fmtFix 0 [crtFix]
      ≠ collectCrtMetrics parseFix fmtFix 1500000000 [crtFix] := by
  decide

/-- Claim C3 (amended): the projection is a pure function of the domain
records together with the wall-clock value captured during that run (and
the given children iteration order): the tunnel-category samples do not
depend on the clock at all, and the certificate sample names and label
vectors (hence the series set and its order) do not depend on the clock —
only the certificate validity/expiry values do. -/
theorem C3_determinism_amended (sasEnv : SasEnv) (crtEnv : CrtEnv)
    (p : String → Option X509Cert) (f : Int → String) (n n' : Int) :
    nonCertSamples (collect ⟨sasEnv, crtEnv, p, f, n⟩)
        = nonCertSamples (collect ⟨sasEnv, crtEnv, p, f, n'⟩)
    ∧ (∀ crts, (collectCrtMetrics p f n crts).map (fun s => (s.name, s.labels))
        = (collectCrtMetrics p f n' crts).map (fun s => (s.name, s.labels))) := by
  have hnil : ∀ (m : Int) (crts : List Crt),
      (collectCrtMetrics p f m crts).filter (fun s => !certSampleNames.contains s.name)
        = [] := by
    intro m crts
    simp only [collectCrtMetrics, crtLoop_eq]
    simp only [List.filter_append, certSamples_flatMap_crtPair]
    rfl
  constructor
  · cases hs : (listSas sasEnv).err with
    | some e => simp [collect, hs]
    | none =>
      cases hc : (listCrts crtEnv).err with
      | some e => simp [collect, hs, hc]
      | none =>
        simp only [collect, hs, hc, nonCertSamples, List.filter_append, hnil]
  · intro crts
    simp only [collectCrtMetrics, crtLoop_eq, List.map_append]
    rw [namesLabels_flatMap_crtPair f n n']

/-- Claim C4 counterexample: in the certificate listing, one record that
fails to decode does not lose only itself — the whole listing comes back
empty (with a nil error, because `return nil, err` returns the stale `err`
of the earlier `m.Err()` check), dropping the decodable sibling. -/
theorem C4_cert_decode_counterexample :
    crtEnvBadFix.request = .ok [⟨none, some crtFix⟩, ⟨none, none⟩]
    ∧ (listCrts crtEnvBadFix).val = []
    ∧ (listCrts crtEnvBadFix).err = none := ⟨rfl, rfl, rfl⟩

/-- Claim C4 (amended): in the tunnel listing a record whose field tree
fails to decode is skipped and only that record is lost — siblings before
and after it still decode; in the certificate listing a decode failure
aborts the whole listing, which returns an empty certificate list with a
nil error, losing every sibling. -/
theorem C4_decode_isolation_amended :
    (∀ (e : Option String) (pre post : List (String × Option IkeSa)) (k : String),
      decodeSasMsg ⟨e, pre ++ (k, none) :: post⟩ = decodeSasMsg ⟨e, pre ++ post⟩)
    ∧ (∀ (bad : CrtMsg) (pre post : List CrtMsg) (acc : List Crt),
        bad.err = none → bad.unmarshal = none →
        (∀ m ∈ pre, m.err = none ∧ m.unmarshal.isSome) →
        listCrtsLoop (pre ++ bad :: post) acc = ([], none)) := by
  constructor
  · intro e pre post k
    simp [decodeSasMsg, List.filterMap_append, List.filterMap_cons]
  · intro bad pre post acc hbe hbu hpre
    exact listCrtsLoop_abort bad post hbe hbu pre acc hpre

/-- Witness for the amended C4 at a concrete certificate stream with one
good record before the undecodable one. -/
theorem C4_decode_isolation_amended_witness :
    (⟨none, none⟩ : CrtMsg).err = none
    ∧ listCrtsLoop ([⟨none, some crtFix⟩] ++ (⟨none, none⟩ : CrtMsg) :: []) [] = ([], none) :=
  ⟨rfl, C4_decode_isolation_amended.2 ⟨none, none⟩ [⟨none, some crtFix⟩] [] [] rfl rfl
    (by decide)⟩

end IpsecExporter
